import Mathlib

/-!
Verification development for the SIGA → MegaZap billing-notification batch job
(`src/clients.py`, `src/config.py`, `src/integration.py`).

The Python modules are shallowly embedded as pure Lean functions:

* Python `date` objects become `PyDate` records ordered lexicographically;
* JSON / dynamically typed Python values become the inductive `JVal`, with
  Python truthiness (`JVal.truthy`) and the short-circuit `or` (`pyOr`);
* Python dicts become ordered association lists (`Dict`) with first-occurrence
  lookup (`dlookup`), insertion-order `setdefault` and `update` semantics;
* fallible Python code (uncaught `ValueError` / `TypeError`) returns `Except`;
* the HTTP layer is abstracted: a paginated API is a function from the request
  to the decoded JSON body of the response.
-/

/-- Model of a Python `datetime.date`: a calendar date. -/
structure PyDate where
  year : Int
  month : Nat
  day : Nat
deriving DecidableEq, Repr

/-- Python `date` comparison `a < b` (lexicographic on year, month, day). -/
def dateLt (a b : PyDate) : Bool :=
  a.year < b.year ||
    (a.year = b.year && (a.month < b.month ||
      (a.month = b.month && a.day < b.day)))

/-- Python `date` comparison `a <= b`. -/
def dateLe (a b : PyDate) : Bool :=
  a.year < b.year ||
    (a.year = b.year && (a.month < b.month ||
      (a.month = b.month && a.day ≤ b.day)))

theorem dateLe_of_not_lt (a b : PyDate) (h : dateLt a b = false) :
    dateLe b a = true := by
  simp only [dateLt, Bool.or_eq_false_iff, Bool.and_eq_false_iff,
    decide_eq_false_iff_not, not_lt] at h
  simp only [dateLe, Bool.or_eq_true, Bool.and_eq_true, decide_eq_true_eq]
  omega

/-- Value of a string of decimal digits. -/
def digits_to_nat (cs : List Char) : Nat :=
  cs.foldl (fun acc c => acc * 10 + (c.toNat - '0'.toNat)) 0

/-- Gregorian leap-year test, as used by Python's `datetime`. -/
def is_leap (y : Int) : Bool :=
  y % 4 = 0 && (y % 100 ≠ 0 || y % 400 = 0)

/-- Number of days in a month, as validated by Python's `datetime`. -/
def days_in_month (y : Int) (m : Nat) : Nat :=
  if m = 2 then (if is_leap y then 29 else 28)
  else if m = 4 ∨ m = 6 ∨ m = 9 ∨ m = 11 then 30
  else 31

/-- Build a date, validating ranges the way Python's `date` constructor does. -/
def mk_valid_date (y : Int) (m d : Nat) : Option PyDate :=
  if 1 ≤ y ∧ y ≤ 9999 ∧ 1 ≤ m ∧ m ≤ 12 ∧ 1 ≤ d ∧ d ≤ days_in_month y m then
    some ⟨y, m, d⟩
  else
    none

/-- Model of `datetime.date.fromisoformat`: accepts exactly the strict
`YYYY-MM-DD` calendar-date format with range validation. -/
def date_fromisoformat (s : String) : Option PyDate :=
  match s.data with
  | [y1, y2, y3, y4, '-', m1, m2, '-', d1, d2] =>
    if (y1.isDigit && y2.isDigit && y3.isDigit && y4.isDigit &&
        m1.isDigit && m2.isDigit && d1.isDigit && d2.isDigit) then
      mk_valid_date (digits_to_nat [y1, y2, y3, y4])
        (digits_to_nat [m1, m2]) (digits_to_nat [d1, d2])
    else
      none
  | _ => none

/-- Validity of a seconds field `SS` or `SS.fff` / `SS.ffffff`. -/
def valid_time_s : List Char → Bool
  | [s1, s2] => s1.isDigit && s2.isDigit && digits_to_nat [s1, s2] < 60
  | s1 :: s2 :: '.' :: frac =>
    s1.isDigit && s2.isDigit && digits_to_nat [s1, s2] < 60 &&
      (frac.length = 3 || frac.length = 6) && frac.all Char.isDigit
  | _ => false

/-- Validity of a minutes field `MM[:SS[.ffffff]]`. -/
def valid_time_m : List Char → Bool
  | [m1, m2] => m1.isDigit && m2.isDigit && digits_to_nat [m1, m2] < 60
  | m1 :: m2 :: ':' :: rest =>
    m1.isDigit && m2.isDigit && digits_to_nat [m1, m2] < 60 && valid_time_s rest
  | _ => false

/-- Validity of a time-of-day field `HH[:MM[:SS[.ffffff]]]`. -/
def valid_time_h : List Char → Bool
  | [h1, h2] => h1.isDigit && h2.isDigit && digits_to_nat [h1, h2] < 24
  | h1 :: h2 :: ':' :: rest =>
    h1.isDigit && h2.isDigit && digits_to_nat [h1, h2] < 24 && valid_time_m rest
  | _ => false

/-- Model of `datetime.datetime.fromisoformat(...).date()`: the full timestamp
format `YYYY-MM-DD` optionally followed by a one-character separator and a
time of day (timezone offsets are not modelled). -/
def datetime_fromisoformat_date (s : String) : Option PyDate :=
  match s.data with
  | y1 :: y2 :: y3 :: y4 :: '-' :: m1 :: m2 :: '-' :: d1 :: d2 :: rest =>
    match date_fromisoformat
        (String.mk [y1, y2, y3, y4, '-', m1, m2, '-', d1, d2]) with
    | none => none
    | some d =>
      match rest with
      | [] => some d
      | _sep :: time => if valid_time_h time then some d else none
  | _ => none

/-- The string-level part of `SIGAClient._parse_date`: try the strict
calendar-date format first, then the full timestamp format, returning `none`
(silent exclusion) when both fail. -/
def parse_date_str (s : String) : Option PyDate :=
  match date_fromisoformat s with
  | some d => some d
  | none => datetime_fromisoformat_date s

/-- Model of a JSON / dynamically typed Python value: the values that flow
through the decoded response payloads and the notification payload. Python
`date` objects (placed into dicts by `dataclasses.asdict`) are included. -/
inductive JVal where
  | null
  | bool (b : Bool)
  | num (q : Rat)
  | str (s : String)
  | arr (xs : List JVal)
  | obj (fs : List (String × JVal))
  | date (d : PyDate)

/-- Python truthiness of a `JVal`. -/
def JVal.truthy : JVal → Bool
  | .null => false
  | .bool b => b
  | .num q => if q = 0 then false else true
  | .str s => if s = "" then false else true
  | .arr xs => if xs.isEmpty then false else true
  | .obj fs => if fs.isEmpty then false else true
  | .date _ => true

/-- Python short-circuit `a or b` on dynamically typed values. -/
def pyOr (a b : JVal) : JVal :=
  if a.truthy then a else b

/-- A Python dict with string keys, modelled as an insertion-ordered
association list. -/
abbrev Dict := List (String × JVal)

/-- First-occurrence lookup in a `Dict` (Python dict indexing / `in`). -/
def dlookup : Dict → String → Option JVal
  | [], _ => none
  | (k, v) :: rest, key => if k = key then some v else dlookup rest key

/-- Python `dict.get(key)`: the stored value, or `None` when absent. -/
def jget (d : Dict) (key : String) : JVal :=
  match dlookup d key with
  | some v => v
  | none => JVal.null

/-- Python `dict.setdefault(key, value)`: insert at the end only when the key
is absent. -/
def setdefault (d : Dict) (key : String) (v : JVal) : Dict :=
  match dlookup d key with
  | some _ => d
  | none => d ++ [(key, v)]

/-- Python `a or b` where `a` holds an optional JSON array and `b` is the
already-evaluated fallback: an absent field (`None`) and a present-but-empty
array are both falsy and fall through to the fallback. -/
def pyOrList {α : Type} (a : Option (List α)) (b : List α) : List α :=
  match a with
  | some l => if l.isEmpty then b else l
  | none => b

/-- ISO rendering of a `PyDate` (Python `str(date)`), zero-padded. -/
def date_iso (d : PyDate) : String :=
  let pad4 := fun (n : Int) =>
    let s := toString n.toNat
    String.mk (List.replicate (4 - s.length) '0') ++ s
  let pad2 := fun (n : Nat) =>
    let s := toString n
    String.mk (List.replicate (2 - s.length) '0') ++ s
  pad4 d.year ++ "-" ++ pad2 d.month ++ "-" ++ pad2 d.day

/-- Model of Python `str(...)` on the values reaching it in this codebase
(ids and message-format arguments). Floats never reach `str` here, so a
non-integral `Rat` is rendered as its reduced fraction; containers are
abbreviated — neither case is exercised by the repository's data flow. -/
def pyStr : JVal → String
  | .null => "None"
  | .bool true => "True"
  | .bool false => "False"
  | .num q => if q.den = 1 then toString q.num else toString q
  | .str s => s
  | .arr _ => "<list>"
  | .obj _ => "<dict>"
  | .date d => date_iso d

/-- An uncaught Python exception from dynamic coercion. -/
inductive PyErr where
  | valueError (msg : String)
  | typeError (msg : String)
deriving DecidableEq, Repr

/-- Exponent suffix of a float literal: optional sign and nonempty digits. -/
def parse_float_exp (cs : List Char) : Option Int :=
  let signed : Bool × List Char :=
    match cs with
    | '-' :: rest => (true, rest)
    | '+' :: rest => (false, rest)
    | _ => (false, cs)
  if signed.2 ≠ [] ∧ signed.2.all Char.isDigit then
    let n : Int := digits_to_nat signed.2
    some (if signed.1 then -n else n)
  else
    none

/-- Unsigned decimal float literal: `digits`, `digits.digits`, `.digits` or
`digits.`, each with an optional exponent. -/
def parse_float_unsigned (cs : List Char) : Option Rat :=
  let intPart := cs.takeWhile Char.isDigit
  let rest := cs.dropWhile Char.isDigit
  match rest with
  | [] => if intPart = [] then none else some ((digits_to_nat intPart : Int) : Rat)
  | '.' :: rest2 =>
    let frac := rest2.takeWhile Char.isDigit
    let rest3 := rest2.dropWhile Char.isDigit
    if intPart = [] ∧ frac = [] then none
    else
      let mant : Rat :=
        (digits_to_nat intPart : Rat) +
          (digits_to_nat frac : Rat) / ((10 : Rat) ^ frac.length)
      match rest3 with
      | [] => some mant
      | e :: rest4 =>
        if e = 'e' ∨ e = 'E' then
          match parse_float_exp rest4 with
          | some k => some (mant * (10 : Rat) ^ k)
          | none => none
        else none
  | e :: rest2 =>
    if (e = 'e' ∨ e = 'E') ∧ intPart ≠ [] then
      match parse_float_exp rest2 with
      | some k => some ((digits_to_nat intPart : Rat) * (10 : Rat) ^ k)
      | none => none
    else none

/-- Python whitespace, as stripped by `str.strip()`. -/
def is_py_space (c : Char) : Bool :=
  c = ' ' || c = '\t' || c = '\n' || c = '\r' || c = '\x0b' || c = '\x0c'

/-- Model of Python `str.strip()` with no argument: remove whitespace from
both ends. -/
def py_strip (s : String) : String :=
  String.mk (((s.data.dropWhile is_py_space).reverse.dropWhile is_py_space).reverse)

/-- Model of Python `float(s)` on a string: strip whitespace, optional sign,
decimal mantissa with optional exponent (`inf` / `nan` are not modelled). -/
def parse_float (s : String) : Option Rat :=
  match (py_strip s).data with
  | '-' :: rest => (parse_float_unsigned rest).map (fun q => -q)
  | '+' :: rest => parse_float_unsigned rest
  | cs => parse_float_unsigned cs

/-- Model of Python `float(x)` on a dynamically typed value: numbers pass
through, booleans coerce to 0/1, strings are parsed (raising `ValueError`
when unparsable), anything else raises. -/
def pyFloat : JVal → Except PyErr Rat
  | .num q => .ok q
  | .bool b => .ok (if b then 1 else 0)
  | .str s =>
    match parse_float s with
    | some q => .ok q
    | none => .error (.valueError s)
  | .null => .error (.typeError "float() argument must not be None")
  | .date _ => .error (.typeError "float() argument must not be a date")
  | .arr _ => .error (.typeError "float() argument must not be a list")
  | .obj _ => .error (.typeError "float() argument must not be a dict")

example : date_fromisoformat "2025-01-10" = some ⟨2025, 1, 10⟩ := rfl
example : date_fromisoformat "2025-02-30" = none := rfl
example : parse_date_str "2025-01-10T12:30:00" = some ⟨2025, 1, 10⟩ := rfl
example : parse_date_str "10/01/2025" = none := rfl
example : parse_float "50" = some 50 := by decide
example : parse_float "abc" = none := by decide

/-- The immutable configuration record (`config.IntegrationConfig`). The source
field holding the authorization scheme word (e.g. `Bearer`) that is prepended
to the token is named here `siga_auth_scheme` / `megazap_auth_scheme`. -/
structure IntegrationConfig where
  siga_base_url : String
  siga_auth_header : String
  siga_auth_token : String
  siga_auth_scheme : String
  siga_students_endpoint : String
  siga_boletos_endpoint : String
  siga_boletos_base_url : String
  siga_boletos_student_param : String
  siga_active_year : Int
  siga_page_size : Int
  siga_extra_headers : List (String × String)
  megazap_base_url : String
  megazap_auth_header : String
  megazap_auth_token : String
  megazap_auth_scheme : String
  megazap_qrcode_endpoint : String
  megazap_default_message : String
  megazap_payload_template : Dict

/-- Insert-or-replace into a string-valued dict, keeping insertion order
(Python `d[k] = v`). -/
def hinsert (d : List (String × String)) (k v : String) : List (String × String) :=
  match d with
  | [] => [(k, v)]
  | (k0, v0) :: rest => if k0 = k then (k0, v) :: rest else (k0, v0) :: hinsert rest k v

/-- Python `dict.update`: apply each binding of the second dict in order. -/
def dict_update : List (String × String) → List (String × String) → List (String × String)
  | d, [] => d
  | d, (k, v) :: rest => dict_update (hinsert d k v) rest

/-- Source `SIGAClient._headers`: accept-JSON plus the authorization header built
from the configured header name, scheme word and token, merged with the
configured static extra headers. -/
def siga_headers (config : IntegrationConfig) : List (String × String) :=
  dict_update
    (hinsert (hinsert [] "Accept" "application/json")
      config.siga_auth_header
      (py_strip (config.siga_auth_scheme ++ " " ++ config.siga_auth_token)))
    config.siga_extra_headers

/-- Locate `://` in a URL, returning the part up to and including it and the
remainder. Helper for the `urljoin` model. -/
def split_at_scheme : List Char → Option (List Char × List Char)
  | [] => none
  | ':' :: '/' :: '/' :: rest => some ([':', '/', '/'], rest)
  | c :: rest =>
    match split_at_scheme rest with
    | some (pre, post) => some (c :: pre, post)
    | none => none

/-- Model of `urllib.parse.urljoin` for absolute `http(s)` bases: an absolute
URL replaces the base, a root-relative path replaces the base's path, and a
relative path is resolved against the base path's directory. -/
def urljoin (base url : String) : String :=
  if url = "" then base
  else
    match split_at_scheme url.data with
    | some _ => url
    | none =>
      match split_at_scheme base.data with
      | none => url
      | some (scheme_part, after) =>
        let netloc := after.takeWhile (fun c => c ≠ '/')
        let path := after.dropWhile (fun c => c ≠ '/')
        let root := String.mk (scheme_part ++ netloc)
        match url.data with
        | '/' :: _ => root ++ url
        | _ =>
          let dir := (path.reverse.dropWhile (fun c => c ≠ '/')).reverse
          let dir := if dir = [] then ['/'] else dir
          root ++ String.mk dir ++ url

/-- The student-listing request issued by `SIGAClient.iter_active_students`
for a given year and page: URL, headers and query parameters
`{ativo, ano, page, pageSize}`. -/
def students_request (config : IntegrationConfig) (year page : Int) :
    String × List (String × String) × List (String × JVal) :=
  (urljoin config.siga_base_url config.siga_students_endpoint,
   siga_headers config,
   [("ativo", .bool true), ("ano", .num (year : Rat)), ("page", .num (page : Rat)),
    ("pageSize", .num ((config.siga_page_size : Int) : Rat))])

/-- Decoded JSON body of a student-listing response. The roster API's item
arrays are modelled as JSON arrays of objects and its page-count fields as
JSON integers. -/
structure StudentsPage where
  items : Option (List Dict)
  data : Option (List Dict)
  totalPages : Option Int
  pages : Option Int

/-- Source `payload.get("items") or payload.get("data") or []` — an absent or empty
`items` array falls through to `data`, and then to the empty list. -/
def students_items (payload : StudentsPage) : List Dict :=
  pyOrList payload.items (pyOrList payload.data [])

/-- A student record as built by `iter_active_students` (ids coerced with
`str`; name and phone keep the dynamic value the fallback chain produced). -/
structure Student where
  id : String
  name : JVal
  phone : JVal

/-- Construction of one `Student` from a roster item. -/
def mk_student (item : Dict) : Student where
  id := pyStr (pyOr (jget item "id") (pyOr (jget item "codigo") (.str "")))
  name := pyOr (jget item "nome") (pyOr (jget item "name") (.str ""))
  phone := pyOr (jget item "telefone") (pyOr (jget item "celular") (jget item "phone"))

/-- Source `payload.get("totalPages") or payload.get("pages")` — a present-but-zero
`totalPages` is falsy and falls through to `pages`. -/
def pyOrInt (a b : Option Int) : Option Int :=
  match a with
  | some v => if v = 0 then b else some v
  | none => b

/-- The first break test of the pagination loop:
`if total_pages and page >= int(total_pages)`. A zero (falsy) count never
stops the loop. -/
def stop_by_total (total_pages : Option Int) (page : Int) : Bool :=
  match total_pages with
  | some v => if v = 0 then false else decide (page ≥ v)
  | none => false

/-- Source `SIGAClient.iter_active_students`, with the HTTP layer abstracted: `api`
maps the outgoing request to the decoded JSON body of its response, and
`fuel` bounds the (in Python unbounded) `while True` loop. Returns the
students yielded and the number of page requests issued. -/
def iter_active_students (config : IntegrationConfig)
    (api : String × List (String × String) × List (String × JVal) → StudentsPage)
    (year : Int) (page : Int) : Nat → List Student × Nat
  | 0 => ([], 0)
  | fuel + 1 =>
    let payload := api (students_request config year page)
    let items := students_items payload
    let students := items.map mk_student
    let total_pages := pyOrInt payload.totalPages payload.pages
    if stop_by_total total_pages page then (students, 1)
    else if items.isEmpty then (students, 1)
    else
      let rest := iter_active_students config api year (page + 1) fuel
      (students ++ rest.1, rest.2 + 1)

/-- A concrete configuration used by concrete evaluations. -/
def example_config : IntegrationConfig where
  siga_base_url := "https://siga04.activesoft.com.br/api"
  siga_auth_header := "Authorization"
  siga_auth_token := "token-1234567890"
  siga_auth_scheme := "Bearer"
  siga_students_endpoint := "/alunos"
  siga_boletos_endpoint := "/alunos/\x7baluno_id\x7d/boletos"
  siga_boletos_base_url := "https://siga04.activesoft.com.br/api"
  siga_boletos_student_param := "aluno_id"
  siga_active_year := 2026
  siga_page_size := 100
  siga_extra_headers := []
  megazap_base_url := "https://api.megazap.com.br"
  megazap_auth_header := "Authorization"
  megazap_auth_token := "mz-secret-token"
  megazap_auth_scheme := "Bearer"
  megazap_qrcode_endpoint := "/whatsapp/qrcode"
  megazap_default_message := "Ola \x7bnome\x7d, seu boleto vence em \x7bdata_vencimento\x7d. "
  megazap_payload_template := []

example :
    (students_request example_config 2026 1).1 =
      "https://siga04.activesoft.com.br/alunos" := rfl

/-- Claim C1 (amended): pagination stops requesting further pages exactly when
either (a) the effective total-page-count — `totalPages`, falling back to
`pages` when `totalPages` is absent or zero — is a nonzero value the current
page number has reached, or (b) the current page's item list is empty;
otherwise the page counter increments by 1 and one more request is issued.
A declared total-page-count of 0 is falsy and never stops enumeration. -/
theorem iter_active_students_pagination (config : IntegrationConfig)
    (api : String × List (String × String) × List (String × JVal) → StudentsPage)
    (year page : Int) (fuel : Nat) (payload : StudentsPage)
    (hp : api (students_request config year page) = payload) :
    (students_items payload = [] →
      (iter_active_students config api year page (fuel + 1)).2 = 1)
    ∧ (∀ v : Int, pyOrInt payload.totalPages payload.pages = some v → v ≠ 0 → page ≥ v →
      (iter_active_students config api year page (fuel + 1)).2 = 1)
    ∧ (students_items payload ≠ [] →
      (∀ v : Int, pyOrInt payload.totalPages payload.pages = some v → v = 0 ∨ page < v) →
      (iter_active_students config api year page (fuel + 1)).2 =
        (iter_active_students config api year (page + 1) fuel).2 + 1) := by
  refine ⟨?_, ?_, ?_⟩
  · intro hitems
    simp only [iter_active_students, hp, hitems]
    by_cases hstop : stop_by_total (pyOrInt payload.totalPages payload.pages) page
    · simp [hstop]
    · simp [hstop]
  · intro v hv hv0 hpage
    have hstop : stop_by_total (pyOrInt payload.totalPages payload.pages) page = true := by
      simp only [stop_by_total, hv]
      simp [hv0, hpage]
    simp only [iter_active_students, hp, hstop]
    simp
  · intro hitems hlt
    have hstop : stop_by_total (pyOrInt payload.totalPages payload.pages) page = false := by
      cases htp : pyOrInt payload.totalPages payload.pages with
      | none => simp [stop_by_total]
      | some v =>
        simp only [stop_by_total]
        by_cases hv0 : v = 0
        · simp [hv0]
        · rcases hlt v htp with h0 | h1
          · exact absurd h0 hv0
          · rw [if_neg hv0]
            simp only [decide_eq_false_iff_not, ge_iff_le, not_le]
            exact h1
    have hne : (students_items payload).isEmpty = false := by
      cases h : students_items payload with
      | nil => exact absurd h hitems
      | cons a l => rfl
    simp only [iter_active_students, hp, hstop, hne]
    simp

/-- Roster API stub whose every page declares `totalPages = 0` and returns one
item: under the claim's reading, enumeration should stop after page 1. -/
def zero_total_api :
    String × List (String × String) × List (String × JVal) → StudentsPage :=
  fun _ => ⟨some [[("id", .num 1)]], none, some 0, none⟩

/-- Claim C1 counterexample: page 1 declares a total-page-count of 0 under
`totalPages` and yields a non-empty item list, so the claim as stated requires
enumeration to stop after one request (1 ≥ 0); the code instead keeps
requesting — with fuel for two iterations it issues 2 requests. -/
theorem iter_zero_total_pages_counterexample :
    (zero_total_api (students_request example_config 2026 1)).totalPages = some 0
    ∧ ((1 : Int) ≥ (0 : Int))
    ∧ (students_items (zero_total_api (students_request example_config 2026 1))).isEmpty
        = false
    ∧ (iter_active_students example_config zero_total_api 2026 1 2).2 = 2 :=
  ⟨rfl, by decide, rfl, rfl⟩

/-- Roster API stub returning an empty page. -/
def empty_page_api :
    String × List (String × String) × List (String × JVal) → StudentsPage :=
  fun _ => ⟨some [], none, none, none⟩

/-- Witness for the amended claim C1 at a concrete input: an empty first page
stops enumeration after exactly one request. -/
theorem iter_active_students_pagination_witness :
    (iter_active_students example_config empty_page_api 2026 1 1).2 = 1 :=
  (iter_active_students_pagination example_config empty_page_api 2026 1 0
    (empty_page_api (students_request example_config 2026 1)) rfl).1 rfl

/-- Source `item.get("dataVencimento") or item.get("dt_vencimento")`. -/
def due_date_field (item : Dict) : JVal :=
  pyOr (jget item "dataVencimento") (jget item "dt_vencimento")

/-- Source `SIGAClient._parse_date` applied to the dynamic value of the due-date
field: a falsy value yields `None`; a truthy string is parsed (strict
calendar-date format, then full timestamp format, silently yielding `None`
when both fail); a truthy non-string raises an uncaught `TypeError`. -/
def parse_due (v : JVal) : Except PyErr (Option PyDate) :=
  if v.truthy = false then .ok none
  else
    match v with
    | .str s => .ok (parse_date_str s)
    | _ => .error (.typeError "fromisoformat: argument must be str")

/-- The amount-source chain of `get_boletos_due`:
`item.get("valor") or item.get("valor_recebido_total") or item.get("valor_boleto") or 0`. -/
def amount_source (item : Dict) : JVal :=
  pyOr (jget item "valor")
    (pyOr (jget item "valor_recebido_total")
      (pyOr (jget item "valor_boleto") (.num 0)))

/-- An invoice record as built by `get_boletos_due`. -/
structure Boleto where
  id : String
  due_date : PyDate
  amount : Rat
  barcode : JVal
  line_digit : JVal

/-- Construction of one `Boleto` from an invoice item whose due date has
already been parsed and window-checked; the `float` coercion of the amount
chain can raise. -/
def boleto_of_item (item : Dict) (due : PyDate) : Except PyErr Boleto :=
  match pyFloat (amount_source item) with
  | .error e => .error e
  | .ok amt => .ok
    { id := pyStr (pyOr (jget item "id") (pyOr (jget item "codigo") (.str "")))
      due_date := due
      amount := amt
      barcode := pyOr (jget item "codigoBarras") (pyOr (jget item "codigo_barras") (.str ""))
      line_digit := pyOr (jget item "linhaDigitavel")
        (pyOr (jget item "linha_digitavel") (.str "")) }

/-- The filtering loop of `get_boletos_due`: items whose due-date field is
falsy or unparsable are skipped, items outside `[start, end]` are skipped,
and each remaining item is turned into a `Boleto` in order. -/
def boletos_from_items (start end_ : PyDate) : List Dict → Except PyErr (List Boleto)
  | [] => .ok []
  | item :: rest =>
    match parse_due (due_date_field item) with
    | .error e => .error e
    | .ok none => boletos_from_items start end_ rest
    | .ok (some due) =>
      if dateLt due start || dateLt end_ due then boletos_from_items start end_ rest
      else
        match boleto_of_item item due with
        | .error e => .error e
        | .ok b =>
          match boletos_from_items start end_ rest with
          | .error e => .error e
          | .ok bs => .ok (b :: bs)

/-- Decoded JSON body of an invoice-list response. -/
structure BoletosPayload where
  items : Option (List Dict)
  data : Option (List Dict)
  resultados : Option (List Dict)

/-- Source `payload.get("items") or payload.get("data") or payload.get("resultados") or []`. -/
def boletos_items (payload : BoletosPayload) : List Dict :=
  pyOrList payload.items (pyOrList payload.data (pyOrList payload.resultados []))

/-- Source `SIGAClient.get_boletos_due`, with the HTTP layer abstracted to the
decoded JSON body of the response. -/
def get_boletos_due (payload : BoletosPayload) (start end_ : PyDate) :
    Except PyErr (List Boleto) :=
  boletos_from_items start end_ (boletos_items payload)

theorem boleto_of_item_due (item : Dict) (due : PyDate) (b : Boleto)
    (h : boleto_of_item item due = .ok b) : b.due_date = due := by
  unfold boleto_of_item at h
  cases hf : pyFloat (amount_source item) with
  | error e => rw [hf] at h; exact absurd h (by simp)
  | ok amt =>
    rw [hf] at h
    simp only [Except.ok.injEq] at h
    subst h
    rfl

theorem boletos_from_items_window (start end_ : PyDate) :
    ∀ (items : List Dict) (bs : List Boleto),
      boletos_from_items start end_ items = .ok bs →
      ∀ b ∈ bs, dateLe start b.due_date = true ∧ dateLe b.due_date end_ = true := by
  intro items
  induction items with
  | nil =>
    intro bs h b hb
    simp only [boletos_from_items, Except.ok.injEq] at h
    subst h
    simp at hb
  | cons item rest ih =>
    intro bs h b hb
    rw [boletos_from_items] at h
    cases hp : parse_due (due_date_field item) with
    | error e =>
      simp only [hp] at h
      exact Except.noConfusion h
    | ok od =>
      cases od with
      | none =>
        simp only [hp] at h
        exact ih bs h b hb
      | some due =>
        simp only [hp] at h
        by_cases hwin : (dateLt due start || dateLt end_ due) = true
        · rw [if_pos hwin] at h
          exact ih bs h b hb
        · rw [if_neg hwin] at h
          cases hba : boleto_of_item item due with
          | error e =>
            simp only [hba] at h
            exact Except.noConfusion h
          | ok b0 =>
            simp only [hba] at h
            cases hrest : boletos_from_items start end_ rest with
            | error e =>
              simp only [hrest] at h
              exact Except.noConfusion h
            | ok bs0 =>
              simp only [hrest, Except.ok.injEq] at h
              subst h
              rcases List.mem_cons.mp hb with rfl | hb0
              · have hdue := boleto_of_item_due item due b hba
                rw [Bool.or_eq_true] at hwin
                push_neg at hwin
                obtain ⟨h1, h2⟩ := hwin
                rw [hdue]
                exact ⟨dateLe_of_not_lt due start (Bool.not_eq_true _ ▸ h1),
                  dateLe_of_not_lt end_ due (Bool.not_eq_true _ ▸ h2)⟩
              · exact ih bs0 hrest b hb0

/-- Claim C2: every `Boleto` produced by `get_boletos_due` has its due date
inside the inclusive query window, and an item whose due-date field is
unparsable (or falsy), as well as an item whose parsed due date falls outside
`[start, end]`, is silently excluded — it contributes nothing and raises
nothing. -/
theorem get_boletos_due_window :
    (∀ (payload : BoletosPayload) (start end_ : PyDate) (bs : List Boleto),
      get_boletos_due payload start end_ = .ok bs →
      ∀ b ∈ bs, dateLe start b.due_date = true ∧ dateLe b.due_date end_ = true)
    ∧ (∀ (start end_ : PyDate) (item : Dict) (rest : List Dict),
      parse_due (due_date_field item) = .ok none →
      boletos_from_items start end_ (item :: rest) = boletos_from_items start end_ rest)
    ∧ (∀ (start end_ : PyDate) (item : Dict) (rest : List Dict) (due : PyDate),
      parse_due (due_date_field item) = .ok (some due) →
      (dateLt due start || dateLt end_ due) = true →
      boletos_from_items start end_ (item :: rest) = boletos_from_items start end_ rest) := by
  refine ⟨?_, ?_, ?_⟩
  · intro payload start end_ bs h
    exact boletos_from_items_window start end_ (boletos_items payload) bs h
  · intro start end_ item rest hp
    rw [boletos_from_items]
    simp only [hp]
  · intro start end_ item rest due hp hwin
    rw [boletos_from_items]
    simp only [hp]
    rw [if_pos hwin]

/-- Invoice response holding one in-window item, one out-of-window item and
one item with an unparsable due date. -/
def window_payload : BoletosPayload :=
  ⟨some [[("dataVencimento", .str "2025-01-10"), ("valor", .num 50), ("id", .str "b1")],
         [("dataVencimento", .str "2024-12-01"), ("valor", .num 10)],
         [("dataVencimento", .str "not-a-date"), ("valor", .num 20)]],
   none, none⟩

/-- Witness for claim C2 at a concrete input: the single retained invoice of
`window_payload` lies inside the window `[2025-01-05, 2025-01-15]`. -/
theorem get_boletos_due_window_witness :
    dateLe ⟨2025, 1, 5⟩
      (⟨"b1", ⟨2025, 1, 10⟩, 50, JVal.str "", JVal.str ""⟩ : Boleto).due_date = true
    ∧ dateLe (⟨"b1", ⟨2025, 1, 10⟩, 50, JVal.str "", JVal.str ""⟩ : Boleto).due_date
        ⟨2025, 1, 15⟩ = true :=
  get_boletos_due_window.1 window_payload ⟨2025, 1, 5⟩ ⟨2025, 1, 15⟩
    [⟨"b1", ⟨2025, 1, 10⟩, 50, JVal.str "", JVal.str ""⟩] rfl
    ⟨"b1", ⟨2025, 1, 10⟩, 50, JVal.str "", JVal.str ""⟩ (by simp)

/-- Invoice response with one in-window item whose `valor` is the
non-numeric string `"abc"`. -/
def bad_amount_payload : BoletosPayload :=
  ⟨some [[("dataVencimento", .str "2025-01-10"), ("valor", .str "abc")]], none, none⟩

/-- Claim C5 counterexample: constructing the amount is not total — an
in-window item whose `valor` is a truthy string that does not parse as a
float makes `get_boletos_due` raise (`float("abc")` raises `ValueError`)
instead of defaulting the amount to 0. -/
theorem get_boletos_due_amount_error_counterexample :
    get_boletos_due bad_amount_payload ⟨2025, 1, 5⟩ ⟨2025, 1, 15⟩ =
      .error (PyErr.valueError "abc") := rfl

/-- Claim C5 (amended): the amount is taken from the first *truthy* amount
field — a field that is present but holds a falsy value (0, an empty string)
falls through to the next — in order `valor`, `valor_recebido_total`,
`valor_boleto`, and is coerced with `float`; when all three are absent or
falsy the amount is 0. The coercion is total on numeric fields, but a truthy
string that does not parse as a float raises an uncaught `ValueError`. In
particular an item with `valor` absent and `valor_boleto = 50` yields
amount 50. -/
theorem boleto_amount_selection :
    (∀ item : Dict, (jget item "valor").truthy = true →
      amount_source item = jget item "valor")
    ∧ (∀ item : Dict, (jget item "valor").truthy = false →
      (jget item "valor_recebido_total").truthy = true →
      amount_source item = jget item "valor_recebido_total")
    ∧ (∀ item : Dict, (jget item "valor").truthy = false →
      (jget item "valor_recebido_total").truthy = false →
      (jget item "valor_boleto").truthy = true →
      amount_source item = jget item "valor_boleto")
    ∧ (∀ item : Dict, (jget item "valor").truthy = false →
      (jget item "valor_recebido_total").truthy = false →
      (jget item "valor_boleto").truthy = false →
      pyFloat (amount_source item) = .ok 0)
    ∧ (∀ s : String, s ≠ "" → parse_float s = none →
      pyFloat (JVal.str s) = .error (.valueError s)) := by
  refine ⟨?_, ?_, ?_, ?_, ?_⟩
  · intro item h1
    simp [amount_source, pyOr, h1]
  · intro item h1 h2
    simp [amount_source, pyOr, h1, h2]
  · intro item h1 h2 h3
    simp [amount_source, pyOr, h1, h2, h3]
  · intro item h1 h2 h3
    simp only [amount_source, pyOr, h1, h2, h3, Bool.false_eq_true, if_false]
    rfl
  · intro s hs hp
    simp [pyFloat, hp]

/-- Witness for the amended claim C5 at the claim's own scenario: an item
with `valor` absent and `valor_boleto = 50` selects the `valor_boleto`
value, and its `float` coercion yields amount 50. -/
theorem boleto_amount_selection_witness :
    amount_source [("valor_boleto", JVal.num 50)] = jget [("valor_boleto", JVal.num 50)] "valor_boleto"
    ∧ pyFloat (amount_source [("valor_boleto", JVal.num 50)]) = .ok 50 :=
  ⟨boleto_amount_selection.2.2.1 [("valor_boleto", JVal.num 50)] rfl rfl (by decide),
   by rw [boleto_amount_selection.2.2.1 [("valor_boleto", JVal.num 50)] rfl rfl (by decide)]; rfl⟩

/-- Roster page whose `items` field is present but empty while `data` holds
one record. -/
def c6_page : StudentsPage := ⟨some [], some [[("id", .num 1)]], none, none⟩

/-- Claim C6 counterexample: on a page whose `items` field is present (with
value `[]`) and whose `data` field holds one record, the item list used is
not the `items` value — the empty `items` array is falsy and falls through
to `data`, so the used list is non-empty. -/
theorem items_extraction_counterexample :
    c6_page.items = some [] ∧ (students_items c6_page).isEmpty = false :=
  ⟨rfl, rfl⟩

/-- Claim C6 (amended): the item list used for a page is the value of the
`items` field whenever that field is present *and non-empty*; the `data`
field is consulted when `items` is absent or empty, and when both are absent
or empty the page is treated as empty (for `get_boletos_due` a third
alternate key, `resultados`, is tried after `data` under the same rule). -/
theorem items_extraction :
    (∀ (p : StudentsPage) (l : List Dict), p.items = some l → l ≠ [] →
      students_items p = l)
    ∧ (∀ p : StudentsPage, (p.items = none ∨ p.items = some []) →
      students_items p = pyOrList p.data [])
    ∧ (∀ p : StudentsPage, (p.items = none ∨ p.items = some []) →
      (p.data = none ∨ p.data = some []) → students_items p = [])
    ∧ (∀ (p : BoletosPayload) (l : List Dict), p.items = some l → l ≠ [] →
      boletos_items p = l)
    ∧ (∀ p : BoletosPayload, (p.items = none ∨ p.items = some []) →
      (p.data = none ∨ p.data = some []) →
      boletos_items p = pyOrList p.resultados []) := by
  refine ⟨?_, ?_, ?_, ?_, ?_⟩
  · intro p l hi hl
    simp [students_items, pyOrList, hi, hl]
  · intro p hi
    rcases hi with hi | hi
    · simp [students_items, pyOrList, hi]
    · simp [students_items, pyOrList, hi]
  · intro p hi hd
    rcases hi with hi | hi <;> rcases hd with hd | hd <;>
      simp [students_items, pyOrList, hi, hd]
  · intro p l hi hl
    simp [boletos_items, pyOrList, hi, hl]
  · intro p hi hd
    rcases hi with hi | hi <;> rcases hd with hd | hd <;>
      simp [boletos_items, pyOrList, hi, hd]

/-- Witness for the amended claim C6 at a concrete input: a page with both
`items` and `data` absent is treated as empty. -/
theorem items_extraction_witness :
    students_items ⟨none, none, none, none⟩ = [] :=
  items_extraction.2.2.1 ⟨none, none, none, none⟩ (Or.inl rfl) (Or.inl rfl)

/-- Replace every occurrence of `pat` (non-overlapping, left to right) in a
character list. Helper for the `str.format` model. -/
def replace_sub (pat repl : List Char) : List Char → List Char
  | [] => []
  | c :: rest =>
    if pat.isPrefixOf (c :: rest) ∧ pat ≠ [] then
      repl ++ replace_sub pat repl (rest.drop (pat.length - 1))
    else
      c :: replace_sub pat repl rest
termination_by l => l.length
decreasing_by
  all_goals simp_wf
  all_goals omega

/-- Model of the `str.format` call of `build_megazap_payload`: substitute the
two named placeholders of the configured default-message template (the model
substitutes sequentially; the arguments produced by the pipeline never
contain placeholder text themselves). -/
def format_message (template nome data_vencimento : String) : String :=
  String.mk (replace_sub "\x7bdata_vencimento\x7d".data data_vencimento.data
    (replace_sub "\x7bnome\x7d".data nome.data template.data))

/-- Source `integration.build_megazap_payload`: start from the configured payload
template (`copy.deepcopy` of an immutable value is the value itself in this
pure model) and `setdefault` each computed field. -/
def build_megazap_payload (config : IntegrationConfig) (aluno boleto : Dict) : Dict :=
  let payload := config.megazap_payload_template
  let payload := setdefault payload "telefone" (jget aluno "phone")
  let payload := setdefault payload "mensagem"
    (.str (format_message config.megazap_default_message
      (pyStr (jget aluno "name")) (pyStr (jget boleto "due_date"))))
  let payload := setdefault payload "valor" (jget boleto "amount")
  let payload := setdefault payload "codigoBarras" (jget boleto "barcode")
  let payload := setdefault payload "linhaDigitavel" (jget boleto "line_digit")
  setdefault payload "dataVencimento" (jget boleto "due_date")

theorem dlookup_append (d1 d2 : Dict) (k : String) :
    dlookup (d1 ++ d2) k =
      match dlookup d1 k with
      | some v => some v
      | none => dlookup d2 k := by
  induction d1 with
  | nil => rfl
  | cons p rest ih =>
    obtain ⟨k0, v0⟩ := p
    by_cases h0 : k0 = k
    · simp [dlookup, h0]
    · simp [dlookup, h0, ih]

theorem dlookup_setdefault_of_isSome (d : Dict) (key : String) (v : JVal)
    (k : String) (h : (dlookup d k).isSome = true) :
    dlookup (setdefault d key v) k = dlookup d k := by
  unfold setdefault
  cases hk : dlookup d key with
  | some w => rfl
  | none =>
    rw [dlookup_append]
    cases hdk : dlookup d k with
    | some w => simp [hdk]
    | none =>
      rw [hdk] at h
      exact absurd h (by simp)

theorem dlookup_setdefault_ne (d : Dict) (key : String) (v : JVal)
    (k : String) (h : ¬ k = key) :
    dlookup (setdefault d key v) k = dlookup d k := by
  unfold setdefault
  cases hk : dlookup d key with
  | some w => rfl
  | none =>
    rw [dlookup_append]
    cases hdk : dlookup d k with
    | some w => simp [hdk]
    | none => simp [hdk, dlookup, Ne.symm h]

theorem dlookup_setdefault_absent (d : Dict) (k : String) (v : JVal)
    (h : dlookup d k = none) :
    dlookup (setdefault d k v) k = some v := by
  unfold setdefault
  rw [h, dlookup_append, h]
  simp [dlookup]

theorem dlookup_foldl_setdefault (k : String) :
    ∀ (kvs : List (String × JVal)) (t : Dict), (dlookup t k).isSome = true →
      dlookup (List.foldl (fun d kv => setdefault d kv.1 kv.2) t kvs) k =
        dlookup t k := by
  intro kvs
  induction kvs with
  | nil => intro t ht; rfl
  | cons kv rest ih =>
    intro t ht
    simp only [List.foldl_cons]
    have h1 := dlookup_setdefault_of_isSome t kv.1 kv.2 k ht
    rw [ih (setdefault t kv.1 kv.2) (by rw [h1]; exact ht), h1]

/-- Claim C3: any key already present in the configured payload template is
returned with the template's value verbatim, never overwritten by a computed
default; each of the six builder keys absent from the template is filled with
its deterministic computed value (student phone, formatted default message,
invoice amount, barcode, line digit and due date). -/
theorem build_megazap_payload_merge :
    (∀ (config : IntegrationConfig) (aluno boleto : Dict) (k : String),
      (dlookup config.megazap_payload_template k).isSome = true →
      dlookup (build_megazap_payload config aluno boleto) k =
        dlookup config.megazap_payload_template k)
    ∧ (∀ (config : IntegrationConfig) (aluno boleto : Dict),
      dlookup config.megazap_payload_template "telefone" = none →
      dlookup (build_megazap_payload config aluno boleto) "telefone" =
        some (jget aluno "phone"))
    ∧ (∀ (config : IntegrationConfig) (aluno boleto : Dict),
      dlookup config.megazap_payload_template "mensagem" = none →
      dlookup (build_megazap_payload config aluno boleto) "mensagem" =
        some (.str (format_message config.megazap_default_message
          (pyStr (jget aluno "name")) (pyStr (jget boleto "due_date")))))
    ∧ (∀ (config : IntegrationConfig) (aluno boleto : Dict),
      dlookup config.megazap_payload_template "valor" = none →
      dlookup (build_megazap_payload config aluno boleto) "valor" =
        some (jget boleto "amount"))
    ∧ (∀ (config : IntegrationConfig) (aluno boleto : Dict),
      dlookup config.megazap_payload_template "codigoBarras" = none →
      dlookup (build_megazap_payload config aluno boleto) "codigoBarras" =
        some (jget boleto "barcode"))
    ∧ (∀ (config : IntegrationConfig) (aluno boleto : Dict),
      dlookup config.megazap_payload_template "linhaDigitavel" = none →
      dlookup (build_megazap_payload config aluno boleto) "linhaDigitavel" =
        some (jget boleto "line_digit"))
    ∧ (∀ (config : IntegrationConfig) (aluno boleto : Dict),
      dlookup config.megazap_payload_template "dataVencimento" = none →
      dlookup (build_megazap_payload config aluno boleto) "dataVencimento" =
        some (jget boleto "due_date")) := by
  refine ⟨?_, ?_, ?_, ?_, ?_, ?_, ?_⟩
  · intro config aluno boleto k hk
    have hb : build_megazap_payload config aluno boleto =
        List.foldl (fun d kv => setdefault d kv.1 kv.2)
          config.megazap_payload_template
          [("telefone", jget aluno "phone"),
           ("mensagem", JVal.str (format_message config.megazap_default_message
              (pyStr (jget aluno "name")) (pyStr (jget boleto "due_date")))),
           ("valor", jget boleto "amount"),
           ("codigoBarras", jget boleto "barcode"),
           ("linhaDigitavel", jget boleto "line_digit"),
           ("dataVencimento", jget boleto "due_date")] := rfl
    rw [hb, dlookup_foldl_setdefault k _ _ hk]
  · intro config aluno boleto h
    simp only [build_megazap_payload]
    rw [dlookup_setdefault_ne _ "dataVencimento" _ "telefone" (by decide),
        dlookup_setdefault_ne _ "linhaDigitavel" _ "telefone" (by decide),
        dlookup_setdefault_ne _ "codigoBarras" _ "telefone" (by decide),
        dlookup_setdefault_ne _ "valor" _ "telefone" (by decide),
        dlookup_setdefault_ne _ "mensagem" _ "telefone" (by decide),
        dlookup_setdefault_absent _ "telefone" _ h]
  · intro config aluno boleto h
    simp only [build_megazap_payload]
    rw [dlookup_setdefault_ne _ "dataVencimento" _ "mensagem" (by decide),
        dlookup_setdefault_ne _ "linhaDigitavel" _ "mensagem" (by decide),
        dlookup_setdefault_ne _ "codigoBarras" _ "mensagem" (by decide),
        dlookup_setdefault_ne _ "valor" _ "mensagem" (by decide),
        dlookup_setdefault_absent]
    rw [dlookup_setdefault_ne _ "telefone" _ "mensagem" (by decide)]
    exact h
  · intro config aluno boleto h
    simp only [build_megazap_payload]
    rw [dlookup_setdefault_ne _ "dataVencimento" _ "valor" (by decide),
        dlookup_setdefault_ne _ "linhaDigitavel" _ "valor" (by decide),
        dlookup_setdefault_ne _ "codigoBarras" _ "valor" (by decide),
        dlookup_setdefault_absent]
    rw [dlookup_setdefault_ne _ "mensagem" _ "valor" (by decide),
        dlookup_setdefault_ne _ "telefone" _ "valor" (by decide)]
    exact h
  · intro config aluno boleto h
    simp only [build_megazap_payload]
    rw [dlookup_setdefault_ne _ "dataVencimento" _ "codigoBarras" (by decide),
        dlookup_setdefault_ne _ "linhaDigitavel" _ "codigoBarras" (by decide),
        dlookup_setdefault_absent]
    rw [dlookup_setdefault_ne _ "valor" _ "codigoBarras" (by decide),
        dlookup_setdefault_ne _ "mensagem" _ "codigoBarras" (by decide),
        dlookup_setdefault_ne _ "telefone" _ "codigoBarras" (by decide)]
    exact h
  · intro config aluno boleto h
    simp only [build_megazap_payload]
    rw [dlookup_setdefault_ne _ "dataVencimento" _ "linhaDigitavel" (by decide),
        dlookup_setdefault_absent]
    rw [dlookup_setdefault_ne _ "codigoBarras" _ "linhaDigitavel" (by decide),
        dlookup_setdefault_ne _ "valor" _ "linhaDigitavel" (by decide),
        dlookup_setdefault_ne _ "mensagem" _ "linhaDigitavel" (by decide),
        dlookup_setdefault_ne _ "telefone" _ "linhaDigitavel" (by decide)]
    exact h
  · intro config aluno boleto h
    simp only [build_megazap_payload]
    rw [dlookup_setdefault_absent]
    rw [dlookup_setdefault_ne _ "linhaDigitavel" _ "dataVencimento" (by decide),
        dlookup_setdefault_ne _ "codigoBarras" _ "dataVencimento" (by decide),
        dlookup_setdefault_ne _ "valor" _ "dataVencimento" (by decide),
        dlookup_setdefault_ne _ "mensagem" _ "dataVencimento" (by decide),
        dlookup_setdefault_ne _ "telefone" _ "dataVencimento" (by decide)]
    exact h

/-- Configuration whose payload template overrides `mensagem`. -/
def custom_message_config : IntegrationConfig :=
  { example_config with megazap_payload_template := [("mensagem", .str "Custom")] }

/-- Student dict (as produced by `_safe_student`) for the claim C3 scenario. -/
def c3_aluno : Dict :=
  [("id", .str "1"), ("name", .str "Ana"), ("phone", .str "+5511999990000")]

/-- Invoice dict (as produced by `_safe_boleto`) for the claim C3 scenario. -/
def c3_boleto : Dict :=
  [("id", .str "b1"), ("due_date", .date ⟨2025, 1, 10⟩), ("amount", .num 50),
   ("barcode", .str ""), ("line_digit", .str "")]

/-- Witness for claim C3 at the claim's own scenario: with payload template
`{"mensagem": "Custom"}`, student name `Ana` and invoice due 2025-01-10, the
built payload's `mensagem` is exactly `"Custom"`. -/
theorem build_megazap_payload_merge_witness :
    dlookup (build_megazap_payload custom_message_config c3_aluno c3_boleto)
      "mensagem" = some (JVal.str "Custom") :=
  (build_megazap_payload_merge.1 custom_message_config c3_aluno c3_boleto
    "mensagem" rfl).trans rfl

/-- Source `integration._redact_value` on the characters of a header value: empty →
`<vazio>`; length at most `visible` → `***`; otherwise the first two
characters, an ellipsis, and the last `visible` characters. -/
def redact_value (value : List Char) (visible : Nat) : List Char :=
  if value = [] then "<vazio>".data
  else if value.length ≤ visible then "***".data
  else value.take 2 ++ "...".data ++ value.drop (value.length - visible)

/-- Python `value.split(" ", 1)`: `some (before, after)` around the first
space, or `none` when the value contains no space. -/
def split_first_space : List Char → Option (List Char × List Char)
  | [] => none
  | c :: rest =>
    if c = ' ' then some ([], rest)
    else
      match split_first_space rest with
      | some (p, t) => some (c :: p, t)
      | none => none

/-- Source `integration._redact_authorization`: keep the scheme word before the
first space readable and mask the token part; a value without a space is
masked whole. -/
def redact_authorization (value : List Char) : List Char :=
  if value = [] then "<vazio>".data
  else
    match split_first_space value with
    | some (pre, tok) => pre ++ ' ' :: redact_value tok 4
    | none => redact_value value 4

/-- Python `str.lower()` (ASCII as exercised by header names). -/
def py_lower (s : String) : String :=
  String.mk (s.data.map Char.toLower)

/-- The header-redaction loop of `integration.debug_siga`: the configured
authorization header (name compared case-insensitively) is redacted with
`redact_authorization`; every other header value becomes the opaque
placeholder. -/
def redact_headers (auth_header_name : String)
    (headers : List (String × String)) : List (String × String) :=
  headers.map (fun kv =>
    if py_lower kv.1 = py_lower auth_header_name then
      (kv.1, String.mk (redact_authorization kv.2.data))
    else
      (kv.1, "<redacted>"))

/-- Claim C7 counterexample: masking does not always differ from the original
token — the 9-character token `ab...wxyz` masks to itself (and hence the
masked form also contains that token's middle segment). -/
theorem redact_value_fixed_point_counterexample :
    redact_value "ab...wxyz".data 4 = "ab...wxyz".data := rfl

theorem split_first_space_append (pre tok : List Char) (h : ' ' ∉ pre) :
    split_first_space (pre ++ ' ' :: tok) = some (pre, tok) := by
  induction pre with
  | nil => simp [split_first_space]
  | cons c pre' ih =>
    have hc : ¬ c = ' ' := by
      intro hce
      exact h (hce ▸ List.mem_cons_self c pre')
    have h' : ' ' ∉ pre' := fun hm => h (List.mem_cons_of_mem c hm)
    simp only [List.cons_append, split_first_space, hc, if_false]
    show (match split_first_space (pre' ++ ' ' :: tok) with
      | some (p, t) => some (c :: p, t)
      | none => none) = some (c :: pre', tok)
    rw [ih h']

/-- Claim C7 (amended): redaction of the authorization header splits the
value at the first space and leaves the scheme word readable; a non-empty
token of length at most the configured visible-length (4) becomes the fixed
placeholder `***`, while a longer token is masked to its first two
characters, an ellipsis, and its last four characters — a masked form that
can coincide with the original token (e.g. `ab...wxyz`) and, for tokens of
length 5 or 6, contains every character of the token; every header other
than the authorization header is replaced by the opaque placeholder
`<redacted>`. -/
theorem redact_authorization_masking :
    (∀ pre tok : List Char, ' ' ∉ pre →
      redact_authorization (pre ++ ' ' :: tok) = pre ++ ' ' :: redact_value tok 4)
    ∧ (∀ tok : List Char, tok ≠ [] → tok.length ≤ 4 →
      redact_value tok 4 = "***".data)
    ∧ (∀ tok : List Char, 4 < tok.length →
      redact_value tok 4 = tok.take 2 ++ "...".data ++ tok.drop (tok.length - 4))
    ∧ (∀ (name : String) (headers : List (String × String)) (k v : String),
      (k, v) ∈ headers → ¬ py_lower k = py_lower name →
      (k, "<redacted>") ∈ redact_headers name headers) := by
  refine ⟨?_, ?_, ?_, ?_⟩
  · intro pre tok h
    have hne : ¬ (pre ++ ' ' :: tok) = [] := by simp
    simp only [redact_authorization, if_neg hne, split_first_space_append pre tok h]
  · intro tok h1 h2
    simp only [redact_value, if_neg h1, if_pos h2]
  · intro tok h
    have h1 : ¬ tok = [] := by
      intro he
      subst he
      simp at h
    simp only [redact_value, if_neg h1, if_neg (not_le.mpr h)]
  · intro name headers k v hm hk
    simp only [redact_headers]
    refine List.mem_map.mpr ⟨(k, v), hm, ?_⟩
    simp [hk]

/-- Witness for the amended claim C7 at a concrete input: a `Bearer` value's
scheme word stays readable and its 16-character token is masked to first two
characters, ellipsis and last four. -/
theorem redact_authorization_masking_witness :
    redact_authorization ("Bearer".data ++ ' ' :: "secret-token-123".data) =
      "Bearer".data ++ ' ' :: redact_value "secret-token-123".data 4 :=
  redact_authorization_masking.1 "Bearer".data "secret-token-123".data (by decide)

/-- Claim C10: for a token of length exactly 5 or 6, the two-character
visible head and four-character visible tail of the mask together cover
every position, so every character of the token occurs in the masked form —
redaction discloses all characters of such tokens. -/
theorem redact_value_discloses_short_tokens (t : List Char)
    (h : t.length = 5 ∨ t.length = 6) :
    ∀ c ∈ t, c ∈ redact_value t 4 := by
  intro c hc
  have hne : ¬ t = [] := by
    intro he
    subst he
    simp at h
  have hlen : ¬ t.length ≤ 4 := by
    rcases h with h | h <;> omega
  simp only [redact_value, if_neg hne, if_neg hlen]
  simp only [List.mem_append]
  have hsplit : t.take 2 ++ t.drop 2 = t := List.take_append_drop 2 t
  have hc' : c ∈ t.take 2 ++ t.drop 2 := by
    rw [hsplit]
    exact hc
  rcases List.mem_append.mp hc' with h1 | h2
  · exact Or.inl (Or.inl h1)
  · rcases h with h5 | h6
    · have he : t.length - 4 = 1 := by omega
      rw [he]
      have hdd : (t.drop 1).drop 1 = t.drop 2 := by
        rw [List.drop_drop]
      exact Or.inr (List.drop_subset 1 (t.drop 1) (hdd.symm ▸ h2))
    · have he : t.length - 4 = 2 := by omega
      rw [he]
      exact Or.inr h2

/-- Witness for claim C10 at a concrete input: the middle character of the
5-character token `abcde` still occurs in its masked form. -/
theorem redact_value_discloses_short_tokens_witness :
    'c' ∈ redact_value "abcde".data 4 :=
  redact_value_discloses_short_tokens "abcde".data (Or.inl rfl) 'c' (by decide)

/-- The process environment: variable name to value. -/
abbrev Env := List (String × String)

/-- Python `os.getenv(name, default)`. -/
def getenv (env : Env) (name dflt : String) : String :=
  match env.lookup name with
  | some v => v
  | none => dflt

/-- A fatal startup error of `config.load_config` (Python `ValueError`),
distinguished by raise site. -/
inductive ConfigError where
  | required (name : String)
  | invalidJson (name : String)
  | notAnObject (name : String)
  | badInt (value : String)
deriving DecidableEq, Repr

/-- JSON whitespace skipping for the `json.loads` model. -/
def json_skip_ws (cs : List Char) : List Char :=
  cs.dropWhile (fun c => c = ' ' || c = '\t' || c = '\n' || c = '\r')

/-- Hexadecimal digit value. -/
def hex_val (c : Char) : Option Nat :=
  if c.isDigit then some (c.toNat - '0'.toNat)
  else if 'a' ≤ c ∧ c ≤ 'f' then some (c.toNat - 'a'.toNat + 10)
  else if 'A' ≤ c ∧ c ≤ 'F' then some (c.toNat - 'A'.toNat + 10)
  else none

/-- Body of a JSON string after the opening quote: content and remainder. -/
def json_string_rest : Nat → List Char → Option (List Char × List Char)
  | 0, _ => none
  | _ + 1, [] => none
  | _ + 1, '"' :: rest => some ([], rest)
  | fuel + 1, '\\' :: rest =>
    match rest with
    | 'u' :: h1 :: h2 :: h3 :: h4 :: rest2 =>
      match hex_val h1, hex_val h2, hex_val h3, hex_val h4 with
      | some a, some b, some c, some d =>
        match json_string_rest fuel rest2 with
        | some (s, r) => some (Char.ofNat (((a * 16 + b) * 16 + c) * 16 + d) :: s, r)
        | none => none
      | _, _, _, _ => none
    | e :: rest2 =>
      let dec : Option Char :=
        if e = '"' then some '"'
        else if e = '\\' then some '\\'
        else if e = '/' then some '/'
        else if e = 'b' then some '\x08'
        else if e = 'f' then some '\x0c'
        else if e = 'n' then some '\n'
        else if e = 'r' then some '\r'
        else if e = 't' then some '\t'
        else none
      match dec with
      | some c =>
        match json_string_rest fuel rest2 with
        | some (s, r) => some (c :: s, r)
        | none => none
      | none => none
    | [] => none
  | fuel + 1, c :: rest =>
    match json_string_rest fuel rest with
    | some (s, r) => some (c :: s, r)
    | none => none

/-- A JSON number with optional sign, fraction and exponent. -/
def json_number (cs : List Char) : Option (Rat × List Char) :=
  let sp : Bool × List Char :=
    match cs with
    | '-' :: r => (true, r)
    | _ => (false, cs)
  let intd := sp.2.takeWhile Char.isDigit
  let cs2 := sp.2.dropWhile Char.isDigit
  if intd = [] then none
  else
    let mp : Option (Rat × List Char) :=
      match cs2 with
      | '.' :: r =>
        let frac := r.takeWhile Char.isDigit
        let r2 := r.dropWhile Char.isDigit
        if frac = [] then none
        else some ((digits_to_nat intd : Rat) +
          (digits_to_nat frac : Rat) / (10 : Rat) ^ frac.length, r2)
      | _ => some ((digits_to_nat intd : Rat), cs2)
    match mp with
    | none => none
    | some (q, cs3) =>
      let q := if sp.1 then -q else q
      match cs3 with
      | 'e' :: r | 'E' :: r =>
        let ep : Bool × List Char :=
          match r with
          | '-' :: rr => (true, rr)
          | '+' :: rr => (false, rr)
          | _ => (false, r)
        let ed := ep.2.takeWhile Char.isDigit
        let r2 := ep.2.dropWhile Char.isDigit
        if ed = [] then none
        else
          let ex : Int :=
            if ep.1 then -(digits_to_nat ed : Int) else (digits_to_nat ed : Int)
          some (q * (10 : Rat) ^ ex, r2)
      | _ => some (q, cs3)

mutual

/-- One JSON value (model of the value grammar used by `json.loads`). -/
def json_value : Nat → List Char → Option (JVal × List Char)
  | 0, _ => none
  | fuel + 1, cs =>
    match json_skip_ws cs with
    | 'n' :: 'u' :: 'l' :: 'l' :: rest => some (.null, rest)
    | 't' :: 'r' :: 'u' :: 'e' :: rest => some (.bool true, rest)
    | 'f' :: 'a' :: 'l' :: 's' :: 'e' :: rest => some (.bool false, rest)
    | '"' :: rest =>
      match json_string_rest (rest.length + 1) rest with
      | some (s, r) => some (.str (String.mk s), r)
      | none => none
    | '[' :: rest =>
      match json_skip_ws rest with
      | ']' :: r2 => some (.arr [], r2)
      | _ =>
        match json_elems fuel rest with
        | some (xs, r2) => some (.arr xs, r2)
        | none => none
    | '\x7b' :: rest =>
      match json_skip_ws rest with
      | '\x7d' :: r2 => some (.obj [], r2)
      | _ =>
        match json_members fuel rest with
        | some (fs, r2) => some (.obj fs, r2)
        | none => none
    | cs2 =>
      match json_number cs2 with
      | some (q, r) => some (.num q, r)
      | none => none

/-- Comma-separated JSON array elements up to the closing bracket. -/
def json_elems : Nat → List Char → Option (List JVal × List Char)
  | 0, _ => none
  | fuel + 1, cs =>
    match json_value fuel cs with
    | some (v, r) =>
      match json_skip_ws r with
      | ',' :: r2 =>
        match json_elems fuel r2 with
        | some (xs, r3) => some (v :: xs, r3)
        | none => none
      | ']' :: r2 => some ([v], r2)
      | _ => none
    | none => none

/-- Comma-separated JSON object members up to the closing brace. -/
def json_members : Nat → List Char → Option (List (String × JVal) × List Char)
  | 0, _ => none
  | fuel + 1, cs =>
    match json_skip_ws cs with
    | '"' :: rest =>
      match json_string_rest (rest.length + 1) rest with
      | some (key, r) =>
        match json_skip_ws r with
        | ':' :: r2 =>
          match json_value fuel r2 with
          | some (v, r3) =>
            match json_skip_ws r3 with
            | ',' :: r4 =>
              match json_members fuel r4 with
              | some (fs, r5) => some ((String.mk key, v) :: fs, r5)
              | none => none
            | '\x7d' :: r4 => some ([(String.mk key, v)], r4)
            | _ => none
          | none => none
        | _ => none
      | none => none
    | _ => none

end

/-- Model of Python `json.loads`: parse one value and require only
whitespace after it. -/
def json_loads (s : String) : Option JVal :=
  match json_value (s.length + 1) s.data with
  | some (v, rest) =>
    match json_skip_ws rest with
    | [] => some v
    | _ => none
  | none => none

example : json_loads "\x7b\x7d" = some (.obj []) := rfl
example : json_loads " \x7b \"a\" : 1 \x7d " = some (.obj [("a", .num 1)]) := rfl
example : json_loads "not json" = none := rfl

/-- Source `config._load_env_default`: strip the variable's value, empty or unset
falls back to the default. -/
def load_env_default (env : Env) (name dflt : String) : String :=
  let value := py_strip (getenv env name "")
  if value = "" then dflt else value

/-- Source `config._load_env_required`: strip the variable's value, raise when it is
missing or blank. -/
def load_env_required (env : Env) (name : String) : Except ConfigError String :=
  if py_strip (getenv env name "") = "" then .error (.required name)
  else .ok (py_strip (getenv env name ""))

/-- Source `config._load_payload_template`. In Python a non-object JSON value would
be accepted here and only fail later (at `setdefault`); the typed model
rejects it at load time. -/
def load_payload_template (env : Env) : Except ConfigError Dict :=
  let raw := getenv env "MEGAZAP_PAYLOAD_TEMPLATE_JSON" "\x7b\x7d"
  if py_strip raw = "" then .ok []
  else
    match json_loads raw with
    | some (.obj fs) => .ok fs
    | some _ => .error (.notAnObject "MEGAZAP_PAYLOAD_TEMPLATE_JSON")
    | none => .error (.invalidJson "MEGAZAP_PAYLOAD_TEMPLATE_JSON")

/-- Source `config._load_siga_extra_headers`: valid JSON, must be an object, keys
and values coerced with `str`. -/
def load_siga_extra_headers (env : Env) : Except ConfigError (List (String × String)) :=
  let raw := getenv env "SIGA_EXTRA_HEADERS_JSON" "\x7b\x7d"
  if py_strip raw = "" then .ok []
  else
    match json_loads raw with
    | some (.obj fs) => .ok (fs.map (fun kv => (kv.1, pyStr kv.2)))
    | some _ => .error (.notAnObject "SIGA_EXTRA_HEADERS_JSON")
    | none => .error (.invalidJson "SIGA_EXTRA_HEADERS_JSON")

/-- Split an optional leading sign for the `int(...)` model. -/
def int_sign_split (t : List Char) : Bool × List Char :=
  match t with
  | '-' :: r => (true, r)
  | '+' :: r => (false, r)
  | _ => (false, t)

/-- Model of Python `int(s)`: strip whitespace, optional sign, nonempty
digits; anything else raises. -/
def pyInt (s : String) : Except ConfigError Int :=
  let p := int_sign_split ((py_strip s).data)
  if p.2 ≠ [] ∧ p.2.all Char.isDigit then
    .ok (if p.1 then -(digits_to_nat p.2 : Int) else (digits_to_nat p.2 : Int))
  else
    .error (.badInt s)

/-- Python `str.rstrip("/")`. -/
def rstrip_slash (s : String) : String :=
  String.mk ((s.data.reverse.dropWhile (fun c => c = '/')).reverse)

/-- Everything `config.load_config` evaluates after the two token checks
(endpoint defaults, integer settings, JSON settings, record construction). -/
def load_config_rest (env : Env) (siga_auth_token megazap_auth_token : String) :
    Except ConfigError IntegrationConfig :=
  let siga_base_url := load_env_default env "SIGA_BASE_URL"
    "https://siga04.activesoft.com.br/api"
  let megazap_base_url := load_env_default env "MEGAZAP_BASE_URL"
    "https://api.megazap.com.br"
  match pyInt (getenv env "SIGA_ACTIVE_YEAR" "2026") with
  | .error e => .error e
  | .ok siga_active_year =>
    match pyInt (getenv env "SIGA_PAGE_SIZE" "100") with
    | .error e => .error e
    | .ok siga_page_size =>
      match load_siga_extra_headers env with
      | .error e => .error e
      | .ok siga_extra_headers =>
        match load_payload_template env with
        | .error e => .error e
        | .ok megazap_payload_template =>
          .ok {
            siga_base_url := rstrip_slash siga_base_url
            siga_auth_header := load_env_default env "SIGA_AUTH_HEADER" "Authorization"
            siga_auth_token := siga_auth_token
            siga_auth_scheme := load_env_default env "SIGA_AUTH_PREFIX" "Bearer"
            siga_students_endpoint := load_env_default env "SIGA_STUDENTS_ENDPOINT" "/alunos"
            siga_boletos_endpoint := load_env_default env "SIGA_BOLETOS_ENDPOINT"
              "/alunos/\x7baluno_id\x7d/boletos"
            siga_boletos_base_url := rstrip_slash
              (load_env_default env "SIGA_BOLETOS_BASE_URL" siga_base_url)
            siga_boletos_student_param := load_env_default env
              "SIGA_BOLETOS_STUDENT_PARAM" "aluno_id"
            siga_active_year := siga_active_year
            siga_page_size := siga_page_size
            siga_extra_headers := siga_extra_headers
            megazap_base_url := rstrip_slash megazap_base_url
            megazap_auth_header := load_env_default env "MEGAZAP_AUTH_HEADER" "Authorization"
            megazap_auth_token := megazap_auth_token
            megazap_auth_scheme := load_env_default env "MEGAZAP_AUTH_PREFIX" "Bearer"
            megazap_qrcode_endpoint := load_env_default env
              "MEGAZAP_QRCODE_ENDPOINT" "/whatsapp/qrcode"
            megazap_default_message := getenv env "MEGAZAP_DEFAULT_MESSAGE"
              "Ol√° \x7bnome\x7d, seu boleto vence em \x7bdata_vencimento\x7d. "
            megazap_payload_template := megazap_payload_template
          }

/-- Source `config.load_config`: the roster token is always required; the messaging
token is required exactly when `require_megazap_token` is set; all other
settings are read afterwards. -/
def load_config (env : Env) (require_megazap_token : Bool) :
    Except ConfigError IntegrationConfig :=
  match load_env_required env "SIGA_AUTH_TOKEN" with
  | .error e => .error e
  | .ok siga_auth_token =>
    let megazap_auth_token := py_strip (getenv env "MEGAZAP_AUTH_TOKEN" "")
    if require_megazap_token ∧ megazap_auth_token = "" then
      .error (.required "MEGAZAP_AUTH_TOKEN")
    else
      load_config_rest env siga_auth_token megazap_auth_token

/-- Source `integration.main`'s diagnostics-mode flag: `--debug-siga` or `--debug`. -/
def main_debug_mode (debug_siga_flag debug_flag : Bool) : Bool :=
  debug_siga_flag || debug_flag

/-- Source `integration.main`'s choice of `require_megazap_token`:
`not (args.dry_run or debug_mode)`. -/
def main_require_megazap_token (dry_run debug_siga_flag debug_flag : Bool) : Bool :=
  !(dry_run || main_debug_mode debug_siga_flag debug_flag)

theorem load_env_required_error (env : Env) (n : String) (e : ConfigError)
    (h : load_env_required env n = .error e) : e = .required n := by
  unfold load_env_required at h
  by_cases hc : py_strip (getenv env n "") = ""
  · rw [if_pos hc] at h
    injection h with h
    exact h.symm
  · rw [if_neg hc] at h
    exact Except.noConfusion h

theorem load_env_required_ok (env : Env) (n : String) (tok : String)
    (h : load_env_required env n = .ok tok) :
    ¬ py_strip (getenv env n "") = "" := by
  intro hc
  unfold load_env_required at h
  rw [if_pos hc] at h
  exact Except.noConfusion h

theorem load_env_required_of_ne (env : Env) (n : String)
    (h : ¬ py_strip (getenv env n "") = "") :
    load_env_required env n = .ok (py_strip (getenv env n "")) := by
  unfold load_env_required
  rw [if_neg h]

theorem pyInt_error (s : String) (e : ConfigError)
    (h : pyInt s = .error e) : e = .badInt s := by
  unfold pyInt at h
  by_cases hc : (int_sign_split ((py_strip s).data)).2 ≠ [] ∧
      (int_sign_split ((py_strip s).data)).2.all Char.isDigit
  · rw [if_pos hc] at h
    exact Except.noConfusion h
  · rw [if_neg hc] at h
    injection h with h
    exact h.symm

theorem load_payload_template_error (env : Env) (e : ConfigError)
    (h : load_payload_template env = .error e) :
    e = .invalidJson "MEGAZAP_PAYLOAD_TEMPLATE_JSON"
    ∨ e = .notAnObject "MEGAZAP_PAYLOAD_TEMPLATE_JSON" := by
  simp only [load_payload_template] at h
  by_cases hr : py_strip (getenv env "MEGAZAP_PAYLOAD_TEMPLATE_JSON" "\x7b\x7d") = ""
  · rw [if_pos hr] at h
    exact Except.noConfusion h
  · rw [if_neg hr] at h
    cases hj : json_loads (getenv env "MEGAZAP_PAYLOAD_TEMPLATE_JSON" "\x7b\x7d") with
    | none =>
      rw [hj] at h
      injection h with h
      exact Or.inl h.symm
    | some v =>
      rw [hj] at h
      cases v with
      | obj fs => exact Except.noConfusion h
      | null => injection h with h; exact Or.inr h.symm
      | bool b => injection h with h; exact Or.inr h.symm
      | num q => injection h with h; exact Or.inr h.symm
      | str s => injection h with h; exact Or.inr h.symm
      | arr xs => injection h with h; exact Or.inr h.symm
      | date d => injection h with h; exact Or.inr h.symm

theorem load_siga_extra_headers_error (env : Env) (e : ConfigError)
    (h : load_siga_extra_headers env = .error e) :
    e = .invalidJson "SIGA_EXTRA_HEADERS_JSON"
    ∨ e = .notAnObject "SIGA_EXTRA_HEADERS_JSON" := by
  simp only [load_siga_extra_headers] at h
  by_cases hr : py_strip (getenv env "SIGA_EXTRA_HEADERS_JSON" "\x7b\x7d") = ""
  · rw [if_pos hr] at h
    exact Except.noConfusion h
  · rw [if_neg hr] at h
    cases hj : json_loads (getenv env "SIGA_EXTRA_HEADERS_JSON" "\x7b\x7d") with
    | none =>
      rw [hj] at h
      injection h with h
      exact Or.inl h.symm
    | some v =>
      rw [hj] at h
      cases v with
      | obj fs => exact Except.noConfusion h
      | null => injection h with h; exact Or.inr h.symm
      | bool b => injection h with h; exact Or.inr h.symm
      | num q => injection h with h; exact Or.inr h.symm
      | str s => injection h with h; exact Or.inr h.symm
      | arr xs => injection h with h; exact Or.inr h.symm
      | date d => injection h with h; exact Or.inr h.symm

theorem load_config_rest_no_required (env : Env) (a b : String) (n : String) :
    load_config_rest env a b ≠ .error (.required n) := by
  intro h
  simp only [load_config_rest] at h
  cases hy : pyInt (getenv env "SIGA_ACTIVE_YEAR" "2026") with
  | error e =>
    rw [hy] at h
    injection h with h
    rw [pyInt_error _ _ hy] at h
    exact ConfigError.noConfusion h
  | ok y =>
    rw [hy] at h
    cases hp : pyInt (getenv env "SIGA_PAGE_SIZE" "100") with
    | error e =>
      rw [hp] at h
      injection h with h
      rw [pyInt_error _ _ hp] at h
      exact ConfigError.noConfusion h
    | ok p =>
      rw [hp] at h
      cases hx : load_siga_extra_headers env with
      | error e =>
        rw [hx] at h
        injection h with h
        rcases load_siga_extra_headers_error env e hx with he | he <;>
          (rw [he] at h; exact ConfigError.noConfusion h)
      | ok xs =>
        rw [hx] at h
        cases ht : load_payload_template env with
        | error e =>
          rw [ht] at h
          injection h with h
          rcases load_payload_template_error env e ht with he | he <;>
            (rw [he] at h; exact ConfigError.noConfusion h)
        | ok tmpl =>
          rw [ht] at h
          exact Except.noConfusion h

theorem load_config_siga_required (env : Env) (req : Bool)
    (h : py_strip (getenv env "SIGA_AUTH_TOKEN" "") = "") :
    load_config env req = .error (.required "SIGA_AUTH_TOKEN") := by
  have hs : load_env_required env "SIGA_AUTH_TOKEN" =
      .error (.required "SIGA_AUTH_TOKEN") := by
    unfold load_env_required
    rw [if_pos h]
  simp only [load_config, hs]

theorem load_config_megazap_iff (env : Env) (req : Bool) :
    load_config env req = .error (.required "MEGAZAP_AUTH_TOKEN") ↔
      (¬ py_strip (getenv env "SIGA_AUTH_TOKEN" "") = ""
       ∧ req = true ∧ py_strip (getenv env "MEGAZAP_AUTH_TOKEN" "") = "") := by
  constructor
  · intro h
    simp only [load_config] at h
    cases hs : load_env_required env "SIGA_AUTH_TOKEN" with
    | error e =>
      simp only [hs] at h
      injection h with h
      rw [load_env_required_error env "SIGA_AUTH_TOKEN" e hs] at h
      exact absurd h (by decide)
    | ok tok =>
      simp only [hs] at h
      by_cases hc : req = true ∧ py_strip (getenv env "MEGAZAP_AUTH_TOKEN" "") = ""
      · exact ⟨load_env_required_ok env "SIGA_AUTH_TOKEN" tok hs, hc.1, hc.2⟩
      · rw [if_neg hc] at h
        exact absurd h (load_config_rest_no_required env tok _ _)
  · rintro ⟨h1, h2, h3⟩
    simp only [load_config, load_env_required_of_ne env "SIGA_AUTH_TOKEN" h1]
    rw [if_pos ⟨h2, h3⟩]

/-- Claim C9: `load_config` always requires the roster (SIGA) auth token,
raising a configuration error when it is missing or blank; it raises the
messaging (MegaZap) token-required error exactly when that token is required
and missing or blank (and the roster token check passed); and `main` requires
the messaging token exactly when the run is neither a dry-run nor a
diagnostics (`--debug-siga`/`--debug`) invocation. -/
theorem load_config_token_requirements :
    (∀ (env : Env) (req : Bool), py_strip (getenv env "SIGA_AUTH_TOKEN" "") = "" →
      load_config env req = .error (.required "SIGA_AUTH_TOKEN"))
    ∧ (∀ (env : Env) (req : Bool),
      load_config env req = .error (.required "MEGAZAP_AUTH_TOKEN") ↔
        (¬ py_strip (getenv env "SIGA_AUTH_TOKEN" "") = ""
         ∧ req = true ∧ py_strip (getenv env "MEGAZAP_AUTH_TOKEN" "") = ""))
    ∧ (∀ dry dsiga dbg : Bool,
      main_require_megazap_token dry dsiga dbg = true ↔
        (dry = false ∧ dsiga = false ∧ dbg = false)) :=
  ⟨load_config_siga_required, load_config_megazap_iff, by decide⟩

/-- Witness for claim C9 at concrete inputs: an empty environment is missing
the roster token, so `load_config` fails with the roster-token error even
when the messaging token is not required; and with only the roster token set,
requiring the messaging token fails with the messaging-token error. -/
theorem load_config_token_requirements_witness :
    load_config [] false = .error (.required "SIGA_AUTH_TOKEN")
    ∧ load_config [("SIGA_AUTH_TOKEN", "tok")] true =
        .error (.required "MEGAZAP_AUTH_TOKEN") :=
  ⟨load_config_token_requirements.1 [] false rfl,
   (load_config_token_requirements.2.1 [("SIGA_AUTH_TOKEN", "tok")] true).mpr
     ⟨by decide, rfl, rfl⟩⟩

/-- Modelled from the spec: `SIGAClient.build_students_request`, the method
`debug_siga` calls, is not present under `src/` (the spec notes the
repository also contains superseded snapshots of its modules, and only this
client method is missing). Per the spec's Diagnostics Helper,
`describeStudentsRequest(config, year, page)` "constructs, without sending,
the exact request Roster Client would issue for the student-listing call":
the students URL joined from the configured base and endpoint, the
authorization header built from the configured header name, scheme word and
token merged with the configured static extra headers, and the query
parameters `{active: true, year, page, pageSize}` under their wire names. -/
def build_students_request (config : IntegrationConfig) (year page : Int) :
    String × List (String × String) × List (String × JVal) :=
  (urljoin config.siga_base_url config.siga_students_endpoint,
   dict_update
     (hinsert (hinsert [] "Accept" "application/json")
       config.siga_auth_header
       (py_strip (config.siga_auth_scheme ++ " " ++ config.siga_auth_token)))
     config.siga_extra_headers,
   [("ativo", .bool true), ("ano", .num (year : Rat)), ("page", .num (page : Rat)),
    ("pageSize", .num ((config.siga_page_size : Int) : Rat))])

/-- The request description produced by `integration.debug_siga`: it calls
`build_students_request` with the configured active year and page 1, without
any network access. -/
def debug_siga_request (config : IntegrationConfig) :
    String × List (String × String) × List (String × JVal) :=
  build_students_request config config.siga_active_year 1

/-- Claim C4: the diagnostics entry point describes, without sending, exactly
the URL, headers and query parameters of the student-listing request that
`iter_active_students` issues for the given year and page; in particular
`debug_siga`'s description equals the page-1 request for the configured
active year. -/
theorem debug_siga_request_refines :
    (∀ (config : IntegrationConfig) (year page : Int),
      build_students_request config year page = students_request config year page)
    ∧ (∀ config : IntegrationConfig,
      debug_siga_request config = students_request config config.siga_active_year 1) :=
  ⟨fun _ _ _ => rfl, fun _ => rfl⟩
